import Mathlib

/-!
Shallow embedding of the commerce core of the storefront repository:
the data model (`app/core/database.py`), the catalog listings
(`app/frontend/pages/products.py`, `app/frontend/pages/home.py`), the cart
operations (`app/frontend/pages/cart.py`, `app/frontend/pages/products.py`)
and the checkout workflow (`app/frontend/pages/checkout.py`).

Money is modelled with `ℚ` (the Python code uses binary floats; the rational
model captures the exact arithmetic the code expresses).  The database is a
record of row lists; SQLAlchemy sessions and commits are modelled by explicit
state passing, with the `orders.order_number` unique constraint modelled as a
membership test whose violation takes the code's `except` branch (rollback
plus a generic error notification).  The random `uuid4`-based order number is
modelled as an explicit argument of the checkout operation.
-/

namespace Shop

/-- Row of the `products` table (`database.py`, class `Product`). -/
structure Product where
  id : Nat
  name : String
  slug : String
  price : ℚ
  sale_price : Option ℚ
  stock_quantity : Int
  is_active : Bool
  is_featured : Bool
  category_ids : List Nat
deriving DecidableEq, Repr

/-- `Product.current_price` (`database.py` line 95-97):
`self.sale_price if self.sale_price else self.price`.  A `None` or `0.0`
sale price is falsy in Python, any other value (including one larger than
`price`, or negative) is truthy and is returned as-is. -/
def Product.current_price (p : Product) : ℚ :=
  match p.sale_price with
  | some v => if v = 0 then p.price else v
  | none => p.price

/-- Row of the `categories` table (`database.py`, class `Category`). -/
structure Category where
  id : Nat
  name : String
  slug : String
  is_active : Bool
deriving DecidableEq, Repr

/-- Row of the `cart_items` table (`database.py`, class `CartItem`). -/
structure CartItem where
  id : Nat
  user_id : Nat
  product_id : Nat
  quantity : Int
  size : Option String
  color : Option String
deriving DecidableEq, Repr

/-- Row of the `orders` table (`database.py`, class `Order`). -/
structure Order where
  id : Nat
  user_id : Nat
  order_number : String
  status : String
  total_amount : ℚ
  shipping_address : String
  payment_method : String
  payment_status : String
deriving DecidableEq, Repr

/-- Row of the `order_items` table (`database.py`, class `OrderItem`).
`price` is the price at time of order. -/
structure OrderItem where
  order_id : Nat
  product_id : Nat
  quantity : Int
  price : ℚ
  size : Option String
  color : Option String
deriving DecidableEq, Repr

/-- The relational store: one list per table, plus the auto-increment
counter for `orders.id`. -/
structure DB where
  products : List Product
  categories : List Category
  cart_items : List CartItem
  orders : List Order
  order_items : List OrderItem
  next_order_id : Nat
deriving DecidableEq, Repr

/-! ## Catalog listings -/

/-- The product query of `products_page` (`products.py` lines 17-32):
`db.query(Product).filter(Product.is_active == True)`, further filtered by
category membership when a category slug is given and resolves to a
category row. -/
def products_page (db : DB) (category : Option String) : List Product :=
  let base := db.products.filter (fun p => p.is_active)
  match category with
  | none => base
  | some slug =>
    match db.categories.find? (fun c => c.slug == slug) with
    | none => base
    | some c => base.filter (fun p => p.category_ids.contains c.id)

/-- The featured-product query of `home_page` (`home.py` line 19):
`db.query(Product).filter(Product.is_featured == True).limit(8)` — note the
absence of any `is_active` filter. -/
def home_featured (db : DB) : List Product :=
  (db.products.filter (fun p => p.is_featured)).take 8

/-! ## Cart operations -/

/-- The cart listing used by `cart_page` and `checkout_page`:
`db.query(CartItem).filter(CartItem.user_id == current_user.id).all()`. -/
def cart_items_of (db : DB) (uid : Nat) : List CartItem :=
  db.cart_items.filter (fun ci => ci.user_id == uid)

/-- `remove_item` (`cart.py` lines 117-125): deletes the row with the given
primary key. -/
def remove_item (db : DB) (item : CartItem) : DB :=
  { db with cart_items := db.cart_items.filter (fun ci => !(ci.id == item.id)) }

/-- `update_quantity` (`cart.py` lines 102-115): computes
`new_quantity = item.quantity + change`; removes the item when the result is
`≤ 0`, otherwise updates the stored quantity of the row with that id. -/
def update_quantity (db : DB) (item : CartItem) (change : Int) : DB :=
  let new_quantity := item.quantity + change
  if new_quantity ≤ 0 then remove_item db item
  else
    { db with
      cart_items := db.cart_items.map (fun ci =>
        if ci.id == item.id then { ci with quantity := new_quantity } else ci) }

/-- `add_to_cart` (`products.py` lines 193-196).  The function body only
emits a notification; it performs no database write at all (the comment in
the source reads "This would integrate with cart management system").  The
returned pair is the (unchanged) database and the notification text. -/
def add_to_cart (db : DB) (product : Product) (quantity : Int) : DB × String :=
  (db, "Added " ++ toString quantity ++ " x " ++ product.name ++ " to cart!")

/-! ## Checkout workflow -/

/-- The shipping/contact/payment form of `checkout_page`. -/
structure CheckoutForm where
  first_name : String
  last_name : String
  email : String
  phone : String
  address : String
  city : String
  state : String
  zip_code : String
  payment_method : String
deriving DecidableEq, Repr

/-- The guard of `place_order` (`checkout.py` line 141):
`all([first_name, last_name, email, address, city, state, zip_code])` —
Python string truthiness, i.e. each of the seven listed fields is
non-empty.  `phone` is not in the list. -/
def required_fields_present (f : CheckoutForm) : Bool :=
  !(f.first_name == "") && !(f.last_name == "") && !(f.email == "") &&
  !(f.address == "") && !(f.city == "") && !(f.state == "") && !(f.zip_code == "")

/-- Outcome of a checkout attempt, matching the user-visible paths of
`checkout_page`/`place_order`: the empty-cart page, the validation
notification, the generic failure notification of the `except` branch, and
the success notification carrying the order number. -/
inductive CheckoutResult where
  | emptyCart
  | validationError (message : String)
  | orderError (message : String)
  | success (order_number : String)
deriving DecidableEq, Repr

/-- Pairs each snapshot cart row with its product row (`item.product` in the
source; the relationship lookup by `product_id`). -/
def line_products (db : DB) (cart : List CartItem) : List (CartItem × Product) :=
  cart.filterMap (fun ci =>
    (db.products.find? (fun p => p.id == ci.product_id)).map (fun p => (ci, p)))

/-- The subtotal computed in `checkout_page` (line 39):
`sum(item.product.current_price * item.quantity for item in cart_items)`. -/
def cart_subtotal (db : DB) (cart : List CartItem) : ℚ :=
  ((line_products db cart).map
    (fun l => l.2.current_price * (l.1.quantity : ℚ))).sum

/-- `place_order` (`checkout.py` lines 135-190).  `order_number` stands for
the freshly drawn `f"ORD-{uuid.uuid4().hex[:8].upper()}"`.  If any of the
seven required fields is empty the function notifies
`'Please fill in all required fields'` and returns without touching the
database.  Otherwise it inserts the `Order` (status `confirmed`, payment
status `paid`, `total_amount` as passed in), one `OrderItem` per cart line
with `price = cart_item.product.current_price`, deletes the snapshot cart
rows, and commits.  A violation of the `order_number` unique constraint
makes the commit raise; the `except` branch rolls the transaction back and
notifies `'Error placing order. Please try again.'`. -/
def place_order (db : DB) (uid : Nat) (form : CheckoutForm) (order_number : String)
    (cart : List CartItem) (total : ℚ) : CheckoutResult × DB :=
  if !(required_fields_present form) then
    (CheckoutResult.validationError "Please fill in all required fields", db)
  else if db.orders.any (fun o => o.order_number == order_number) then
    (CheckoutResult.orderError "Error placing order. Please try again.", db)
  else
    let shipping_address :=
      form.address ++ ", " ++ form.city ++ ", " ++ form.state ++ " " ++ form.zip_code
    let order : Order :=
      { id := db.next_order_id, user_id := uid, order_number := order_number,
        status := "confirmed", total_amount := total,
        shipping_address := shipping_address,
        payment_method := form.payment_method, payment_status := "paid" }
    let new_items : List OrderItem :=
      (line_products db cart).map (fun l =>
        { order_id := order.id, product_id := l.1.product_id,
          quantity := l.1.quantity, price := l.2.current_price,
          size := l.1.size, color := l.1.color })
    let db2 : DB :=
      { db with
        orders := db.orders ++ [order],
        order_items := db.order_items ++ new_items,
        cart_items := db.cart_items.filter (fun ci => !(cart.any (fun c => c.id == ci.id))),
        next_order_id := db.next_order_id + 1 }
    (CheckoutResult.success order_number, db2)

/-- The full checkout interaction (`checkout_page` + the Place Order
button): the user's cart is snapshotted; an empty cart shows the
`'Your cart is empty'` page and nothing else happens; otherwise the page
computes `total` from the snapshot and the button invokes
`place_order(..., cart_items, total * 1.08)`.  The snapshot products are
the objects loaded at page render, so both the passed total and the frozen
`OrderItem.price` values come from the same product state. -/
def checkout_flow (db : DB) (uid : Nat) (form : CheckoutForm)
    (order_number : String) : CheckoutResult × DB :=
  let cart := cart_items_of db uid
  if cart.isEmpty then (CheckoutResult.emptyCart, db)
  else place_order db uid form order_number cart (cart_subtotal db cart * (108 / 100))

/-! ## Pricing formula from the spec (for stating the order-total invariant) -/

/-- Sum of `price × quantity` over a list of order items. -/
def items_subtotal (items : List OrderItem) : ℚ :=
  (items.map (fun oi => oi.price * (oi.quantity : ℚ))).sum

/-- The pricing computation of the spec's Pricing Resolver applied to a
committed order's items: subtotal of frozen prices, plus 8% tax, plus zero
shipping. -/
def order_total (items : List OrderItem) : ℚ :=
  items_subtotal items + items_subtotal items * (8 / 100) + 0

/-- Stock of a product by id, for stating stock frame conditions. -/
def stock_of (db : DB) (pid : Nat) : Option Int :=
  (db.products.find? (fun p => p.id == pid)).map (fun p => p.stock_quantity)

/-! ## Operations and traces -/

/-- `update_price`: an out-of-band administrative change of a product's
list/sale price (the spec's "later change to the referenced Products'
prices"); touches only the `products` table. -/
def update_price (db : DB) (pid : Nat) (new_price : ℚ) (new_sale : Option ℚ) : DB :=
  { db with
    products := db.products.map (fun p =>
      if p.id == pid then { p with price := new_price, sale_price := new_sale } else p) }

/-- `set_stock`: an out-of-band administrative change of a product's stock
quantity; touches only the `products` table. -/
def set_stock (db : DB) (pid : Nat) (q : Int) : DB :=
  { db with
    products := db.products.map (fun p =>
      if p.id == pid then { p with stock_quantity := q } else p) }

/-- The operations of the embedded system that can run against the store. -/
inductive Op where
  | checkout (uid : Nat) (form : CheckoutForm) (order_number : String)
  | price_change (pid : Nat) (new_price : ℚ) (new_sale : Option ℚ)
  | stock_change (pid : Nat) (q : Int)
  | cart_update (item : CartItem) (change : Int)
  | cart_remove (item : CartItem)
  | cart_add (product : Product) (quantity : Int)
deriving Repr

/-- State transition of a single operation. -/
def apply_op : Op → DB → DB
  | Op.checkout uid form num, db => (checkout_flow db uid form num).2
  | Op.price_change pid np ns, db => update_price db pid np ns
  | Op.stock_change pid q, db => set_stock db pid q
  | Op.cart_update item c, db => update_quantity db item c
  | Op.cart_remove item, db => remove_item db item
  | Op.cart_add p q, db => (add_to_cart db p q).1

/-- Runs a sequence of operations. -/
def apply_ops (ops : List Op) (db : DB) : DB :=
  ops.foldl (fun d op => apply_op op d) db

/-- Well-formedness of the auto-increment id counter: every existing order
id and every order item's `order_id` is below the counter. -/
def ids_ok (db : DB) : Prop :=
  (∀ o ∈ db.orders, o.id < db.next_order_id) ∧
  (∀ oi ∈ db.order_items, oi.order_id < db.next_order_id)

/-- The committed-order pricing invariant: every stored total equals the
pricing computation over the order's own (frozen-price) items. -/
def totals_ok (db : DB) : Prop :=
  ∀ o ∈ db.orders,
    o.total_amount = order_total (db.order_items.filter (fun oi => oi.order_id == o.id))

/-- Full store invariant. -/
def Inv (db : DB) : Prop := ids_ok db ∧ totals_ok db

instance (db : DB) : Decidable (Inv db) := by
  unfold Inv ids_ok totals_ok
  infer_instance

/-! ## Invariant preservation -/

lemma filter_order_id_nil (l : List OrderItem) (m : Nat)
    (h : ∀ oi ∈ l, oi.order_id ≠ m) :
    l.filter (fun oi => oi.order_id == m) = [] := by
  induction l with
  | nil => rfl
  | cons a t ih =>
    have ha : (a.order_id == m) = false :=
      beq_eq_false_iff_ne.mpr (h a (List.mem_cons_self a t))
    rw [List.filter_cons, ha]
    exact ih (fun oi hoi => h oi (List.mem_cons_of_mem a hoi))

lemma filter_order_id_self (l : List OrderItem) (m : Nat)
    (h : ∀ oi ∈ l, oi.order_id = m) :
    l.filter (fun oi => oi.order_id == m) = l := by
  induction l with
  | nil => rfl
  | cons a t ih =>
    have ha : (a.order_id == m) = true :=
      beq_iff_eq.mpr (h a (List.mem_cons_self a t))
    rw [List.filter_cons, ha]
    simp only [ite_true]
    rw [ih (fun oi hoi => h oi (List.mem_cons_of_mem a hoi))]

lemma items_subtotal_lines (db : DB) (cart : List CartItem) (n : Nat) :
    items_subtotal ((line_products db cart).map (fun l =>
      ⟨n, l.1.product_id, l.1.quantity, l.2.current_price, l.1.size, l.1.color⟩)) =
    cart_subtotal db cart := by
  unfold items_subtotal cart_subtotal
  rw [List.map_map]
  rfl

/-- The success branch of `place_order` establishes the pricing invariant
for the new order and preserves it for the existing ones. -/
lemma inv_insert_order (db : DB) (uid : Nat) (num ship pm : String)
    (cart : List CartItem) (h : Inv db) :
    Inv { db with
      orders := db.orders ++ [⟨db.next_order_id, uid, num, "confirmed",
        cart_subtotal db cart * (108 / 100), ship, pm, "paid"⟩],
      order_items := db.order_items ++ (line_products db cart).map (fun l =>
        ⟨db.next_order_id, l.1.product_id, l.1.quantity, l.2.current_price,
          l.1.size, l.1.color⟩),
      cart_items := db.cart_items.filter (fun ci => !(cart.any (fun c => c.id == ci.id))),
      next_order_id := db.next_order_id + 1 } := by
  obtain ⟨⟨hoid, hiid⟩, htot⟩ := h
  refine ⟨⟨?_, ?_⟩, ?_⟩
  all_goals dsimp only
  · intro o ho
    rcases List.mem_append.mp ho with hold | hnew
    · exact Nat.lt_succ_of_lt (hoid o hold)
    · rw [List.mem_singleton.mp hnew]
      exact Nat.lt_succ_self _
  · intro oi hoi
    rcases List.mem_append.mp hoi with hold | hnew
    · exact Nat.lt_succ_of_lt (hiid oi hold)
    · obtain ⟨l, _, hl⟩ := List.mem_map.mp hnew
      rw [← hl]
      exact Nat.lt_succ_self _
  · intro o ho
    rcases List.mem_append.mp ho with hold | hnew
    · -- an order that already existed: the new items do not reference it
      have hne : List.filter (fun oi => oi.order_id == o.id)
          (List.map (fun l =>
            (⟨db.next_order_id, l.1.product_id, l.1.quantity, l.2.current_price,
              l.1.size, l.1.color⟩ : OrderItem)) (line_products db cart)) = [] := by
        refine filter_order_id_nil _ _ (fun oi hoi => ?_)
        obtain ⟨l, _, hl⟩ := List.mem_map.mp hoi
        rw [← hl]
        exact Nat.ne_of_gt (hoid o hold)
      rw [List.filter_append, hne, List.append_nil]
      exact htot o hold
    · -- the freshly inserted order
      rw [List.mem_singleton.mp hnew]
      dsimp only
      have hold_nil : List.filter (fun oi => oi.order_id == db.next_order_id)
          db.order_items = [] :=
        filter_order_id_nil _ _ (fun oi hoi => Nat.ne_of_lt (hiid oi hoi))
      have hkeep : List.filter (fun oi => oi.order_id == db.next_order_id)
          (List.map (fun l =>
            (⟨db.next_order_id, l.1.product_id, l.1.quantity, l.2.current_price,
              l.1.size, l.1.color⟩ : OrderItem)) (line_products db cart)) =
          List.map (fun l =>
            (⟨db.next_order_id, l.1.product_id, l.1.quantity, l.2.current_price,
              l.1.size, l.1.color⟩ : OrderItem)) (line_products db cart) := by
        refine filter_order_id_self _ _ (fun oi hoi => ?_)
        obtain ⟨l, _, hl⟩ := List.mem_map.mp hoi
        rw [← hl]
      rw [List.filter_append, hold_nil, List.nil_append, hkeep]
      unfold order_total
      rw [items_subtotal_lines]
      ring

/-- Every branch of the checkout workflow preserves the store invariant. -/
lemma checkout_flow_inv (db : DB) (uid : Nat) (form : CheckoutForm) (num : String)
    (h : Inv db) : Inv (checkout_flow db uid form num).2 := by
  simp only [checkout_flow, place_order]
  split
  · exact h
  · split
    · exact h
    · split
      · exact h
      · exact inv_insert_order db uid num _ form.payment_method _ h

/-- Every operation preserves the store invariant (only checkout touches the
order tables). -/
lemma apply_op_inv (op : Op) (db : DB) (h : Inv db) : Inv (apply_op op db) := by
  cases op with
  | checkout uid form num => exact checkout_flow_inv db uid form num h
  | price_change pid np ns => exact h
  | stock_change pid q => exact h
  | cart_update item c =>
    show Inv (update_quantity db item c)
    simp only [update_quantity, remove_item]
    split
    · exact h
    · exact h
  | cart_remove item => exact h
  | cart_add p q => exact h

lemma apply_ops_inv (ops : List Op) (db : DB) (h : Inv db) :
    Inv (apply_ops ops db) := by
  induction ops generalizing db with
  | nil => exact h
  | cons op t ih => exact ih (apply_op op db) (apply_op_inv op db h)

/-! ## Concrete fixtures used by witnesses and counterexamples -/

/-- An active featured product, list price 10, no sale price, stock 5. -/
def wProduct : Product :=
  { id := 1, name := "Tee", slug := "tee", price := 10, sale_price := none,
    stock_quantity := 5, is_active := true, is_featured := true, category_ids := [] }

/-- A cart row of user 1 for `wProduct`: quantity 2, size M, color Blue. -/
def wCart : CartItem :=
  { id := 1, user_id := 1, product_id := 1, quantity := 2,
    size := some "M", color := some "Blue" }

/-- A fully filled checkout form with an empty phone field. -/
def wForm : CheckoutForm :=
  { first_name := "A", last_name := "B", email := "a@b.c", phone := "",
    address := "1 Road", city := "X", state := "Y", zip_code := "9",
    payment_method := "Credit Card" }

/-- Store with one product and one cart row, no orders yet. -/
def wDB : DB :=
  { products := [wProduct], categories := [], cart_items := [wCart],
    orders := [], order_items := [], next_order_id := 0 }

/-- Same store with an empty cart. -/
def emptyCartDB : DB :=
  { products := [wProduct], categories := [], cart_items := [],
    orders := [], order_items := [], next_order_id := 0 }

/-- A checkout by user 1 followed by a drastic later price change of the
ordered product. -/
def opsW : List Op :=
  [Op.checkout 1 wForm "ORD-1", Op.price_change 1 999 (some 500)]

/-! ## Claims -/

/-- C1: for every committed Order in any state reachable by the system's
operations (checkouts, later product price or stock changes, cart
mutations) from a store satisfying the invariant, the stored
`total_amount` equals the pricing computation over the Order's own
OrderItems — the sum of frozen `price × quantity`, plus 8% tax, plus zero
shipping (`order_total`).  Because the trace may contain arbitrary
`price_change` operations after the checkout, the equality is unaffected
by any later change to the referenced Products' prices. -/
theorem committed_order_total_invariant (db0 : DB) (ops : List Op) (h : Inv db0) :
    ∀ o ∈ (apply_ops ops db0).orders,
      o.total_amount =
        order_total ((apply_ops ops db0).order_items.filter
          (fun oi => oi.order_id == o.id)) :=
  (apply_ops_inv ops db0 h).2

theorem committed_order_total_invariant_witness :
    Inv wDB ∧ (apply_ops opsW wDB).orders.length = 1 ∧
    ∀ o ∈ (apply_ops opsW wDB).orders,
      o.total_amount =
        order_total ((apply_ops opsW wDB).order_items.filter
          (fun oi => oi.order_id == o.id)) :=
  ⟨by decide, by decide, committed_order_total_invariant wDB opsW (by decide)⟩

/-- C6: a checkout attempt with an empty cart always takes the
`'Your cart is empty'` path (`emptyCart`), leaves the store untouched, and
in particular creates zero Order and zero OrderItem rows. -/
theorem empty_cart_checkout (db : DB) (uid : Nat) (form : CheckoutForm)
    (num : String) (h : cart_items_of db uid = []) :
    checkout_flow db uid form num = (CheckoutResult.emptyCart, db) ∧
    (checkout_flow db uid form num).2.orders = db.orders ∧
    (checkout_flow db uid form num).2.order_items = db.order_items := by
  have hflow : checkout_flow db uid form num = (CheckoutResult.emptyCart, db) := by
    simp [checkout_flow, h]
  exact ⟨hflow, by rw [hflow], by rw [hflow]⟩

theorem empty_cart_checkout_witness :
    cart_items_of emptyCartDB 1 = [] ∧
    checkout_flow emptyCartDB 1 wForm "ORD-E" = (CheckoutResult.emptyCart, emptyCartDB) :=
  ⟨by decide, (empty_cart_checkout emptyCartDB 1 wForm "ORD-E" (by decide)).1⟩

/-- C10: the validation of `place_order` requires exactly the seven fields
first name, last name, email, address, city, state and ZIP code to be
non-blank; phone is not validated.  For any submission where those seven
are non-blank and phone is blank (and a non-empty cart and a fresh order
number), the order is still created. -/
theorem phone_not_required (db : DB) (uid : Nat) (form : CheckoutForm) (num : String)
    (hc : (cart_items_of db uid).isEmpty = false)
    (_hphone : form.phone = "")
    (h1 : ¬ form.first_name = "") (h2 : ¬ form.last_name = "")
    (h3 : ¬ form.email = "") (h4 : ¬ form.address = "")
    (h5 : ¬ form.city = "") (h6 : ¬ form.state = "")
    (h7 : ¬ form.zip_code = "")
    (hn : (db.orders.any (fun o => o.order_number == num)) = false) :
    (checkout_flow db uid form num).1 = CheckoutResult.success num ∧
    (checkout_flow db uid form num).2.orders.length = db.orders.length + 1 := by
  have hreq : required_fields_present form = true := by
    unfold required_fields_present
    simp [h1, h2, h3, h4, h5, h6, h7]
  simp [checkout_flow, place_order, hc, hreq, hn]

theorem phone_not_required_witness :
    (cart_items_of wDB 1).isEmpty = false ∧ wForm.phone = "" ∧
    (checkout_flow wDB 1 wForm "ORD-1").1 = CheckoutResult.success "ORD-1" ∧
    (checkout_flow wDB 1 wForm "ORD-1").2.orders.length = wDB.orders.length + 1 :=
  ⟨by decide, rfl,
    phone_not_required wDB 1 wForm "ORD-1" (by decide) rfl (by decide) (by decide)
      (by decide) (by decide) (by decide) (by decide) (by decide) (by decide)⟩

/-- `wProduct` with only 1 unit in stock. -/
def lowStockProduct : Product := { wProduct with stock_quantity := 1 }

/-- A cart row asking for 5 units. -/
def bigCart : CartItem := { wCart with quantity := 5 }

/-- Store where the only cart line asks for 5 units of a product with
stock 1. -/
def c2DB : DB :=
  { products := [lowStockProduct], categories := [], cart_items := [bigCart],
    orders := [], order_items := [], next_order_id := 0 }

/-- C2 counterexample: a checkout whose single cart line requests 5 units
of a product with `stock_quantity = 1` does not fail with
InsufficientStock — it succeeds, creates one Order row and one OrderItem
row, and leaves the stock untouched at 1.  The claim that such an attempt
fails and creates no rows is therefore false of the code. -/
theorem insufficient_stock_counterexample :
    (checkout_flow c2DB 1 wForm "ORD-A").1 = CheckoutResult.success "ORD-A" ∧
    (checkout_flow c2DB 1 wForm "ORD-A").2.orders.length = 1 ∧
    (checkout_flow c2DB 1 wForm "ORD-A").2.order_items.length = 1 ∧
    stock_of (checkout_flow c2DB 1 wForm "ORD-A").2 1 = some 1 := by decide

/-- C2 amended: `place_order` performs no stock or active-status
re-validation at all.  Whenever the cart is non-empty, the required form
fields are filled and the generated order number is fresh, the checkout
succeeds — regardless of any product's `stock_quantity` or `is_active` —
and the `products` table (hence every stock level) is left unchanged. -/
theorem no_stock_validation (db : DB) (uid : Nat) (form : CheckoutForm) (num : String)
    (hc : (cart_items_of db uid).isEmpty = false)
    (hf : required_fields_present form = true)
    (hn : (db.orders.any (fun o => o.order_number == num)) = false) :
    (checkout_flow db uid form num).1 = CheckoutResult.success num ∧
    (checkout_flow db uid form num).2.products = db.products := by
  simp [checkout_flow, place_order, hc, hf, hn]

theorem no_stock_validation_witness :
    (cart_items_of c2DB 1).isEmpty = false ∧
    required_fields_present wForm = true ∧
    (checkout_flow c2DB 1 wForm "ORD-A").1 = CheckoutResult.success "ORD-A" ∧
    (checkout_flow c2DB 1 wForm "ORD-A").2.products = c2DB.products :=
  ⟨by decide, by decide,
    (no_stock_validation c2DB 1 wForm "ORD-A" (by decide) (by decide) (by decide)).1,
    (no_stock_validation c2DB 1 wForm "ORD-A" (by decide) (by decide) (by decide)).2⟩

/-- C3 counterexample: a successful checkout of 2 units of a product with
stock 5 leaves `stock_quantity` at 5 — it is not decremented to `5 - 2`
as the claim requires. -/
theorem stock_decrement_counterexample :
    (checkout_flow wDB 1 wForm "ORD-B").1 = CheckoutResult.success "ORD-B" ∧
    stock_of wDB 1 = some 5 ∧
    stock_of (checkout_flow wDB 1 wForm "ORD-B").2 1 = some 5 ∧
    ¬ stock_of (checkout_flow wDB 1 wForm "ORD-B").2 1 = some (5 - 2) := by decide

/-- C3 amended: no operation of the system ever changes any product's
`stock_quantity`: order placement (on every path, including success)
leaves the `products` table unchanged, and so do the cart operations
(quantity change, item removal, add-to-cart). -/
theorem no_operation_changes_stock (db : DB) (uid : Nat) (form : CheckoutForm)
    (num : String) (item : CartItem) (change : Int) (p : Product) (q : Int) :
    (checkout_flow db uid form num).2.products = db.products ∧
    (update_quantity db item change).products = db.products ∧
    (remove_item db item).products = db.products ∧
    (add_to_cart db p q).1.products = db.products := by
  refine ⟨?_, ?_, rfl, rfl⟩
  · simp only [checkout_flow, place_order]
    split
    · rfl
    · split
      · rfl
      · split
        · rfl
        · rfl
  · simp only [update_quantity, remove_item]
    split
    · rfl
    · rfl

/-- A product whose sale price (100) exceeds its list price (50). -/
def badSaleProduct : Product :=
  { id := 2, name := "Bag", slug := "bag", price := 50, sale_price := some 100,
    stock_quantity := 1, is_active := true, is_featured := false, category_ids := [] }

/-- C4 counterexample: `current_price` returns any non-zero sale price
without validating it against the list price, so for a product with list
price 50 and sale price 100 the effective price is 100 and
`effectivePrice(p) ≤ p.listPrice` fails. -/
theorem effective_price_counterexample :
    badSaleProduct.current_price = 100 ∧
    ¬ badSaleProduct.current_price ≤ badSaleProduct.price := by decide

/-- C4 amended: `current_price` is the sale price whenever one is set and
non-zero (with no validity check), else the list price; the bound
`current_price ≤ price` holds only under the extra assumption that any
set sale price is at most the list price. -/
theorem effective_price_amended (p : Product)
    (h : ∀ v, p.sale_price = some v → v ≤ p.price) :
    p.current_price ≤ p.price := by
  unfold Product.current_price
  cases hs : p.sale_price with
  | none => exact le_refl _
  | some v =>
    by_cases hv : v = 0
    · simp [hv]
    · simp only [hv, if_false]
      exact h v hs

theorem effective_price_amended_witness :
    wProduct.current_price ≤ wProduct.price :=
  effective_price_amended wProduct (fun _ hv => nomatch hv)

/-- C5 (code defect): `add_to_cart` only emits the notification
`'Added ... to cart!'` and writes nothing to the database (its own
comment says "This would integrate with cart management system"), so
after adding a product to an empty cart the user's cart listing is still
empty — the claimed round-trip fails at its first step. -/
theorem add_to_cart_is_stub :
    (add_to_cart emptyCartDB wProduct 2).1 = emptyCartDB ∧
    (add_to_cart emptyCartDB wProduct 2).2 = "Added 2 x Tee to cart!" ∧
    cart_items_of (add_to_cart emptyCartDB wProduct 2).1 1 = [] := by decide

/-- Whether an error message names a field: the field text occurs inside
the message text. -/
def mentions (message field : String) : Prop :=
  field.data <:+: message.data

instance (message field : String) : Decidable (mentions message field) := by
  unfold mentions
  infer_instance

/-- `wForm` with the required email field left blank. -/
def missingEmailForm : CheckoutForm := { wForm with email := "" }

/-- C7 counterexample: a submission missing only the email field is
rejected with the fixed message `'Please fill in all required fields'`,
which does not mention the missing field — so the rejection does not
list the missing fields as the claim states. -/
theorem validation_message_counterexample :
    (checkout_flow wDB 1 missingEmailForm "ORD-C").1 =
      CheckoutResult.validationError "Please fill in all required fields" ∧
    ¬ mentions "Please fill in all required fields" "email" ∧
    ¬ mentions "Please fill in all required fields" "Email" := by decide

/-- C7 amended: if any required field is blank (and the cart is
non-empty, so the form is reached at all), order placement fails with the
fixed, non-enumerating message `'Please fill in all required fields'`,
and this happens before any database mutation: the store is returned
unchanged, so no Order, OrderItem, stock or cart row is touched. -/
theorem validation_before_mutation (db : DB) (uid : Nat) (form : CheckoutForm)
    (num : String)
    (hc : (cart_items_of db uid).isEmpty = false)
    (hf : required_fields_present form = false) :
    checkout_flow db uid form num =
      (CheckoutResult.validationError "Please fill in all required fields", db) := by
  simp [checkout_flow, place_order, hc, hf]

theorem validation_before_mutation_witness :
    (cart_items_of wDB 1).isEmpty = false ∧
    required_fields_present missingEmailForm = false ∧
    checkout_flow wDB 1 missingEmailForm "ORD-C" =
      (CheckoutResult.validationError "Please fill in all required fields", wDB) :=
  ⟨by decide, by decide,
    validation_before_mutation wDB 1 missingEmailForm "ORD-C" (by decide) (by decide)⟩

/-- An inactive but featured product. -/
def hiddenFeaturedProduct : Product :=
  { id := 3, name := "Ghost", slug := "ghost", price := 5, sale_price := none,
    stock_quantity := 0, is_active := false, is_featured := true, category_ids := [] }

/-- Store containing only the inactive featured product. -/
def c8DB : DB :=
  { products := [hiddenFeaturedProduct], categories := [], cart_items := [],
    orders := [], order_items := [], next_order_id := 0 }

/-- C8 counterexample: the home page's featured listing filters only on
`is_featured` and returns an inactive product, so not every catalog list
operation is active-only. -/
theorem featured_listing_counterexample :
    hiddenFeaturedProduct ∈ home_featured c8DB ∧
    hiddenFeaturedProduct.is_active = false := by decide

lemma mem_products_page_active (db : DB) (category : Option String) (p : Product)
    (hp : p ∈ products_page db category) : p.is_active = true := by
  unfold products_page at hp
  rcases category with _ | slug
  · exact (List.mem_filter.mp hp).2
  · rcases hfind : db.categories.find? (fun c => c.slug == slug) with _ | c
    · simp only [hfind] at hp
      exact (List.mem_filter.mp hp).2
    · simp only [hfind] at hp
      exact (List.mem_filter.mp (List.mem_filter.mp hp).1).2

/-- C8 amended: the all-products and category-filtered listings return
only `is_active` products (no override parameter exists), but the
featured listing of the home page filters only on `is_featured` and can
therefore include inactive products. -/
theorem active_only_listings (db : DB) (category : Option String) :
    (∀ p ∈ products_page db category, p.is_active = true) ∧
    (∀ p ∈ home_featured db, p.is_featured = true) := by
  constructor
  · exact fun p hp => mem_products_page_active db category p hp
  · intro p hp
    unfold home_featured at hp
    exact (List.mem_filter.mp (List.mem_of_mem_take hp)).2

theorem active_only_listings_witness :
    wProduct ∈ products_page wDB none ∧ wProduct.is_active = true :=
  ⟨by decide, (active_only_listings wDB none).1 wProduct (by decide)⟩

/-- An existing order whose number the next checkout will collide with. -/
def dupOrder : Order :=
  { id := 0, user_id := 2, order_number := "ORD-DUP", status := "confirmed",
    total_amount := 1, shipping_address := "Z", payment_method := "PayPal",
    payment_status := "paid" }

/-- Store that already contains `dupOrder`, with user 1's cart ready. -/
def c9DB : DB :=
  { products := [wProduct], categories := [], cart_items := [wCart],
    orders := [dupOrder], order_items := [], next_order_id := 1 }

/-- C9 counterexample: when the freshly generated order number equals an
existing order's number, the workflow does not regenerate and retry — the
unique-constraint failure is caught, the transaction rolls back (state
unchanged) and the generic failure message is surfaced to the user. -/
theorem duplicate_order_number_counterexample :
    (checkout_flow c9DB 1 wForm "ORD-DUP").1 =
      CheckoutResult.orderError "Error placing order. Please try again." ∧
    (checkout_flow c9DB 1 wForm "ORD-DUP").2 = c9DB := by decide

/-- C9 amended: order-number uniqueness rests solely on the database
constraint; a collision of the generated number with any existing
order's number aborts the attempt with the user-visible message
`'Error placing order. Please try again.'` and leaves the store
unchanged — there is no regeneration or retry. -/
theorem duplicate_order_number_amended (db : DB) (uid : Nat) (form : CheckoutForm)
    (num : String)
    (hc : (cart_items_of db uid).isEmpty = false)
    (hf : required_fields_present form = true)
    (hdup : (db.orders.any (fun o => o.order_number == num)) = true) :
    checkout_flow db uid form num =
      (CheckoutResult.orderError "Error placing order. Please try again.", db) := by
  simp [checkout_flow, place_order, hc, hf, hdup]

theorem duplicate_order_number_amended_witness :
    (cart_items_of c9DB 1).isEmpty = false ∧
    (c9DB.orders.any (fun o => o.order_number == "ORD-DUP")) = true ∧
    checkout_flow c9DB 1 wForm "ORD-DUP" =
      (CheckoutResult.orderError "Error placing order. Please try again.", c9DB) :=
  ⟨by decide, by decide,
    duplicate_order_number_amended c9DB 1 wForm "ORD-DUP" (by decide) (by decide)
      (by decide)⟩

end Shop
